import Mathlib

/-!
Verification of the PayFlex wallet / transaction controllers.

Shallow embedding of the wallet-ledger code:
 - `src/models/transaction.js` (transactionSchema: field set, status and type
   enums, required fields, unique reference index),
 - `src/models/user.js` (walletBalance, min 0),
 - `src/models/walletTransactionModel.js` (walletTransactionSchema),
 - the VTPass payment controller (`makePayment`, `buyAirtime`,
   `buyDataBundle`, `payElectricityBill`, `subscribeTVBouquet`,
   `verifyTransaction`, `getTransactionByReference`),
 - `src/controllers/payStackController.js` (its own `makePayment`,
   `buyDataBundle` with the sandbox switch),
 - `src/controllers/referralController.js` (`applyReferralCode`),
 - the wallet service (`creditWallet` / `debitWallet`).

Mongoose behaviour that matters here and is modelled explicitly:
 - `save` / `create` run schema validation: a value outside a field's `enum`
   or a missing `required` field rejects the write;
 - the `unique` index on `Transaction.reference` rejects a second insert with
   the same reference;
 - `findByIdAndUpdate` does not run validators by default.

Randomly generated references (`ref_${Date.now()}_${random}`) are modelled by
a per-database counter: `genRef` yields the next fresh reference string; where
a theorem needs the generated reference to be absent from the store (what the
randomness plus the unique index provide), that is an explicit hypothesis.
-/

namespace PayFlex

/-- `transactionSchema.status` enum: `["pending", "success", "failed"]`. -/
def statusEnum : List String := ["pending", "success", "failed"]

/-- `transactionSchema.type` enum (src/models/transaction.js lines 42-63). -/
def typeEnum : List String :=
  ["airtime", "data", "electricity", "tv", "education", "other",
   "nin_verification", "nin_phone_search", "nin_tracking_search",
   "bvn_verification", "bvn_phone_search", "transport_booking",
   "transport_refund", "flight_booking", "flight_refund"]

/-- A document of the `Transaction` model (src/models/transaction.js), with
the fields the claims touch.  `required` string fields are `Option` so that a
write that omits them can be rejected by validation, as Mongoose does. -/
structure Transaction where
  serviceID : Option String
  phoneNumber : Option String
  amount : Int
  reference : String
  request_id : Option String
  status : String
  txType : String
  userId : Nat
  failureReason : Option String
  deriving Repr, DecidableEq

/-- A document of the `WalletTransaction` model
(src/models/walletTransactionModel.js): `type` is `credit`/`debit`,
`balanceBefore`/`balanceAfter` are optional numbers, `status` defaults to
`success`. -/
structure WalletTransaction where
  userId : Nat
  wType : String
  amount : Int
  balanceBefore : Option Int
  balanceAfter : Option Int
  reference : Option String
  status : String
  deriving Repr, DecidableEq

/-- Persistent store: the wallet balance of the user under consideration
(`userSchema.walletBalance`), the `Transaction` collection, the
`WalletTransaction` collection, and the counter that stands for the
freshness of generated references. -/
structure DB where
  balance : Int
  transactions : List Transaction
  walletTransactions : List WalletTransaction
  nextRef : Nat
  deriving Repr, DecidableEq

/-- Schema validation of a `Transaction` document, as Mongoose runs it on
`save`/`create`: `status` and `type` must be in their enums, `serviceID` and
`phoneNumber` are `required`. -/
def txValid (t : Transaction) : Bool :=
  t.serviceID.isSome && t.phoneNumber.isSome &&
    statusEnum.contains t.status && typeEnum.contains t.txType

/-- Whether some stored transaction already uses `r` (the unique index on
`reference`). -/
def refExists (db : DB) (r : String) : Bool :=
  db.transactions.any (fun t => t.reference == r)

/-- `newTransaction.save()` for a new document: validation plus the unique
index on `reference`; `none` is a rejected write. -/
def insertTx (db : DB) (t : Transaction) : Option DB :=
  if txValid t && !(refExists db t.reference) then
    some { db with transactions := db.transactions ++ [t] }
  else none

/-- `save()` of an already-stored document found by its reference:
validation runs again; on success the stored copy is replaced. -/
def saveTx (db : DB) (t : Transaction) : Option DB :=
  if txValid t then
    some { db with
      transactions :=
        db.transactions.map (fun u => if u.reference == t.reference then t else u) }
  else none

/-- `Transaction.findByIdAndUpdate` (validators are not run by default). -/
def updateTxNoValidate (db : DB) (ref : String) (t : Transaction) : DB :=
  { db with
    transactions :=
      db.transactions.map (fun u => if u.reference == ref then t else u) }

/-- The fresh reference `ref_${Date.now()}_${random}` for counter value `n`. -/
def genRef (n : Nat) : String := "ref_" ++ toString n

/-- Whether the character list `s` starts with `sub`. -/
def charsHavePre : List Char → List Char → Bool
  | _, [] => true
  | [], _ :: _ => false
  | c :: cs, d :: ds => c == d && charsHavePre cs ds

/-- Whether `sub` occurs somewhere in `s`. -/
def charsContain : List Char → List Char → Bool
  | [], sub => sub.isEmpty
  | c :: cs, sub => charsHavePre (c :: cs) sub || charsContain cs sub

/-- `true` iff `sub` occurs in `s` (JavaScript `String.includes`). -/
def strContains (s sub : String) : Bool := charsContain s.data sub.data

/-- JavaScript `String.toLowerCase`, over the character list. -/
def strToLower (s : String) : String := ⟨s.data.map Char.toLower⟩

/-- `getTransactionType` from `makePayment`: derives the transaction type
from the serviceID by substring matching. -/
def getTransactionType (serviceID : String) : String :=
  if strContains serviceID "-data" then "data"
  else if strContains serviceID "-electric" then "electricity"
  else if strContains serviceID "dstv" || strContains serviceID "gotv" ||
          strContains serviceID "startimes" || strContains serviceID "showmax" then "tv"
  else if strContains serviceID "waec" || strContains serviceID "neco" ||
          strContains serviceID "jamb" then "education"
  else "airtime"

/-- A VTPass HTTP response body: `code`, `content.transactions.status`,
`response_description`. -/
structure ProviderResponse where
  code : String
  txStatus : Option String
  response_description : Option String
  deriving Repr, DecidableEq

/-- Outcome of the `vtpassApi.post("/pay", ...)` call: either a response body
or a thrown error (network error, timeout, non-2xx). -/
inductive ProviderOutcome where
  | ok (r : ProviderResponse)
  | thrown (msg : String)
  deriving Repr, DecidableEq

/-- Arguments that reach `makePayment` from its callers. -/
structure PayArgs where
  serviceID : String
  phoneNumber : String
  amount : Int
  userId : Nat
  request_id : Option String
  deriving Repr, DecidableEq

/-- What `makePayment` produces for its caller: the returned object
(`success`, with the transaction reference), or a thrown error. -/
inductive PayOutcome where
  | ok (success : Bool) (reference : String)
  | err (msg : String)
  deriving Repr, DecidableEq

/-- The success test in `makePayment`:
`code === "000" && (status === "delivered" || status === "successful")`. -/
def isSuccessResp (r : ProviderResponse) : Bool :=
  r.code == "000" && (r.txStatus == some "delivered" || r.txStatus == some "successful")

/-- `makePayment` (universal payment handler): creates a `pending`
transaction, calls VTPass, then marks the stored transaction `success` or
`failed` from the classified response; if the call throws, the catch block
marks it `failed` (via `findByIdAndUpdate`) and rethrows. -/
def makePayment (args : PayArgs) (provider : ProviderOutcome) (db : DB) :
    DB × PayOutcome :=
  let reference := genRef db.nextRef
  let db0 : DB := { db with nextRef := db.nextRef + 1 }
  let t0 : Transaction :=
    { serviceID := some args.serviceID
      phoneNumber := some args.phoneNumber
      amount := args.amount
      reference := reference
      request_id := args.request_id
      status := "pending"
      txType := getTransactionType args.serviceID
      userId := args.userId
      failureReason := none }
  match insertTx db0 t0 with
  | none => (db0, .err "save failed")
  | some db1 =>
    match provider with
    | .ok resp =>
      let t1 : Transaction :=
        if isSuccessResp resp then { t0 with status := "success" }
        else { t0 with
                status := "failed"
                failureReason :=
                  some (resp.response_description.getD "Transaction failed") }
      match saveTx db1 t1 with
      | some db2 => (db2, .ok (t1.status == "success") reference)
      | none => (db1, .err "save failed")
    | .thrown msg =>
      let t1 : Transaction :=
        { t0 with status := "failed", failureReason := some msg }
      (updateTxNoValidate db1 reference t1, .err msg)

/-- `validateWalletBalance`: throws `Insufficient wallet balance` when
`user.walletBalance < amount`. -/
def validateWalletBalance (balance amount : Int) : Except String Unit :=
  if balance < amount then .error "Insufficient wallet balance" else .ok ()

/-- The `networkMap` of `buyAirtime` with its fallback
(`networkMap[network.toLowerCase()] || network.toLowerCase()`). -/
def networkMapAirtime (network : String) : String :=
  let n := strToLower network
  if n == "mtn" then "mtn"
  else if n == "airtel" then "airtel"
  else if n == "glo" then "glo"
  else if n == "9mobile" then "etisalat"
  else if n == "etisalat" then "etisalat"
  else n

/-- What the controller sends back to the client. -/
inductive HttpResult where
  | ok (success : Bool) (reference : String)
  | clientError (msg : String)
  | serverError (msg : String)
  deriving Repr, DecidableEq

/-- One purchase request as it reaches `buyAirtime`: `pinOk` is the result
of the bcrypt comparison against `transactionPinHash`. -/
structure AirtimeRequest where
  phoneNumber : String
  amount : Int
  network : String
  pinOk : Bool
  userId : Nat
  deriving Repr, DecidableEq

/-- `buyAirtime`: verify PIN, `validateWalletBalance`, `makePayment`, and
deduct the wallet (`deductWalletBalance`) only when the returned object has
`success` true; every thrown error is answered with a 500.  `request_id` is
the value `generateRequestId()` produced for this call. -/
def buyAirtime (request_id : String) (req : AirtimeRequest)
    (provider : ProviderOutcome) (db : DB) : DB × HttpResult :=
  if !req.pinOk then (db, .serverError "Invalid Transaction PIN")
  else if db.balance < req.amount then
    (db, .serverError "Insufficient wallet balance")
  else
    let args : PayArgs :=
      { serviceID := networkMapAirtime req.network
        phoneNumber := req.phoneNumber
        amount := req.amount
        userId := req.userId
        request_id := some request_id }
    match makePayment args provider db with
    | (db1, .err msg) => (db1, .serverError msg)
    | (db1, .ok success reference) =>
      if success then
        ({ db1 with balance := db1.balance - req.amount }, .ok true reference)
      else (db1, .ok false reference)

/-- The success test in the payStackController variant of `makePayment`:
`code === "000" || response_description === "TRANSACTION SUCCESSFUL"`. -/
def isSuccessRespPS (r : ProviderResponse) : Bool :=
  r.code == "000" || r.response_description == some "TRANSACTION SUCCESSFUL"

/-- `makePayment` of src/controllers/payStackController.js: the stored
transaction is marked `success` or `failed` from the response, but the
returned object always carries `success: true` when no error was thrown.
The document it creates has no `type` field, so the schema default
`airtime` applies. -/
def makePaymentPS (args : PayArgs) (provider : ProviderOutcome) (db : DB) :
    DB × PayOutcome :=
  let reference := genRef db.nextRef
  let db0 : DB := { db with nextRef := db.nextRef + 1 }
  let t0 : Transaction :=
    { serviceID := some args.serviceID
      phoneNumber := some args.phoneNumber
      amount := args.amount
      reference := reference
      request_id := none
      status := "pending"
      txType := "airtime"
      userId := args.userId
      failureReason := none }
  match insertTx db0 t0 with
  | none => (db0, .err "save failed")
  | some db1 =>
    match provider with
    | .ok resp =>
      let t1 : Transaction :=
        if isSuccessRespPS resp then { t0 with status := "success" }
        else { t0 with status := "failed" }
      match saveTx db1 t1 with
      | some db2 => (db2, .ok true reference)
      | none => (db1, .err "save failed")
    | .thrown msg =>
      let t1 : Transaction :=
        { t0 with status := "failed", failureReason := some msg }
      (updateTxNoValidate db1 reference t1, .err msg)

/-- A data-bundle request as it reaches the payStackController
`buyDataBundle`. -/
structure DataBundleRequest where
  phoneNumber : String
  amount : Int
  serviceID : String
  pinOk : Bool
  userId : Nat
  deriving Repr, DecidableEq

/-- `buyDataBundle` of src/controllers/payStackController.js:
`isSandbox` is `process.env.VTPASS_ENV === 'sandbox'`.  The wallet check is
skipped in sandbox mode, and the deduction happens only when the returned
object has `success` true and the mode is not sandbox. -/
def buyDataBundlePS (isSandbox : Bool) (req : DataBundleRequest)
    (provider : ProviderOutcome) (db : DB) : DB × HttpResult :=
  if !req.pinOk then (db, .clientError "Invalid Transaction PIN")
  else if !isSandbox && db.balance < req.amount then
    (db, .clientError "Insufficient wallet balance")
  else
    let args : PayArgs :=
      { serviceID := req.serviceID
        phoneNumber := req.phoneNumber
        amount := req.amount
        userId := req.userId
        request_id := none }
    match makePaymentPS args provider db with
    | (db1, .err msg) => (db1, .serverError msg)
    | (db1, .ok success reference) =>
      if success && !isSandbox then
        ({ db1 with balance := db1.balance - req.amount }, .ok success reference)
      else (db1, .ok success reference)

/-- What `verifyTransaction` returns to its caller. -/
inductive VerifyResult where
  | notFound
  | verified (status : String)
  | notVerified (msg : String)
  | err (msg : String)
  deriving Repr, DecidableEq

/-- The `/requery` response: `code` and `content.status`. -/
structure RequeryResponse where
  code : String
  contentStatus : Option String
  deriving Repr, DecidableEq

/-- `verifyTransaction`: looks the transaction up by reference, requeries
VTPass, and when the requery code is `000` overwrites the stored status with
`response.data.content?.status || transaction.status` and saves — whatever
the current status is.  The save runs schema validation, so a
provider-reported value outside the status enum rejects the write. -/
def verifyTransaction (reference : String)
    (requery : Option RequeryResponse) (db : DB) : DB × VerifyResult :=
  match db.transactions.find? (fun t => t.reference == reference) with
  | none => (db, .notFound)
  | some t =>
    match requery with
    | none => (db, .err "Internal server error")
    | some resp =>
      if resp.code == "000" then
        let newStatus : String :=
          match resp.contentStatus with
          | some s => if s == "" then t.status else s
          | none => t.status
        let t1 : Transaction := { t with status := newStatus }
        match saveTx db t1 with
        | some db1 => (db1, .verified newStatus)
        | none => (db, .err "validation failed")
      else (db, .notVerified "Verification failed")

/-- `getTransactionByReference`: `Transaction.findOne({ reference, userId })`
— the lookup is keyed by the reference and the authenticated user together. -/
def getTransactionByReference (userId : Nat) (reference : String) (db : DB) :
    Option Transaction :=
  db.transactions.find? (fun t => t.reference == reference && t.userId == userId)

/-- `creditWallet` of the wallet service: reads `balanceBefore`, writes
`balanceAfter = balanceBefore + amount` to the user, and records a
`WalletTransaction` of type `credit` carrying both snapshots (status
defaults to `success`), in one session. -/
def creditWallet (userId : Nat) (amount : Int) (reference : String)
    (db : DB) : DB × WalletTransaction :=
  let balanceBefore := db.balance
  let balanceAfter := balanceBefore + amount
  let w : WalletTransaction :=
    { userId := userId
      wType := "credit"
      amount := amount
      balanceBefore := some balanceBefore
      balanceAfter := some balanceAfter
      reference := some reference
      status := "success" }
  ({ db with
      balance := balanceAfter
      walletTransactions := db.walletTransactions ++ [w] }, w)

/-- `debitWallet` of the wallet service: throws on insufficient balance,
otherwise writes `balanceAfter = balanceBefore - amount` and records a
`WalletTransaction` of type `debit` carrying both snapshots. -/
def debitWallet (userId : Nat) (amount : Int) (reference : String)
    (db : DB) : Except String (DB × WalletTransaction) :=
  if db.balance < amount then .error "Insufficient wallet balance"
  else
    let balanceBefore := db.balance
    let balanceAfter := balanceBefore - amount
    let w : WalletTransaction :=
      { userId := userId
        wType := "debit"
        amount := amount
        balanceBefore := some balanceBefore
        balanceAfter := some balanceAfter
        reference := some reference
        status := "success" }
    .ok ({ db with
            balance := balanceAfter
            walletTransactions := db.walletTransactions ++ [w] }, w)

/-- `calculateReferralReward`: 500 for the first 10 referrals, 750 up to 30,
1000 beyond. -/
def calculateReferralReward (referralLevel : Int) : Int :=
  if referralLevel ≤ 10 then 500
  else if referralLevel ≤ 30 then 750
  else 1000

/-- The referrer's user document as `applyReferralCode` mutates it. -/
structure Referrer where
  userId : Nat
  balance : Int
  totalReferrals : Int
  referralEarnings : Int
  deriving Repr, DecidableEq

/-- `applyReferralCode` (src/controllers/referralController.js), from the
point where referrer and new user have been validated: computes the reward,
saves the referrer with the credited wallet, then calls `Transaction.create`
with `type: 'referral_bonus'`, `status: 'successful'` and no
`serviceID`/`phoneNumber`.  The create runs transactionSchema validation;
a rejected create is caught and answered with a 500 — after the referrer's
wallet was already saved. -/
def applyReferralCode (referrer : Referrer) (refString : String) (db : DB) :
    Referrer × DB × HttpResult :=
  let rewardAmount := calculateReferralReward (referrer.totalReferrals + 1)
  let referrer1 : Referrer :=
    { referrer with
        totalReferrals := referrer.totalReferrals + 1
        referralEarnings := referrer.referralEarnings + rewardAmount
        balance := referrer.balance + rewardAmount }
  let db1 : DB := { db with balance := db.balance + rewardAmount }
  let t : Transaction :=
    { serviceID := none
      phoneNumber := none
      amount := rewardAmount
      reference := refString
      request_id := none
      status := "successful"
      txType := "referral_bonus"
      userId := referrer.userId
      failureReason := none }
  match insertTx db1 t with
  | some db2 => (referrer1, db2, .ok true refString)
  | none => (referrer1, db1, .serverError "Failed to apply referral code")

/-!
Interleaving model for concurrent debit purchases (claim C4).

Each request handler runs `User.findById` (a read of the wallet balance into
its own in-memory document), validates `walletBalance < amount` on that
document, and later runs `deductWalletBalance`, which saves
`read value - amount` back.  Requests interleave at the awaited store and
provider calls, so a schedule is a sequence of read and write events, one
read and one write per request.
-/

/-- One scheduler event: request `i` performs its balance read, or its
validate-and-save step. -/
inductive Ev where
  | read (i : Nat)
  | write (i : Nat)
  deriving Repr, DecidableEq

/-- Shared balance plus, per request, the balance its handler has read
(`none` before the read) and whether its debit went through. -/
structure ConcState where
  balance : Int
  locals : List (Option Int)
  succeeded : List Bool
  deriving Repr, DecidableEq

/-- One event of the interleaved execution: a read snapshots the shared
balance into the request's document; a write checks
`validateWalletBalance` on the snapshot and, if it passes, saves
`snapshot - amount` as the new shared balance. -/
def concStep (amounts : List Int) (s : ConcState) (e : Ev) : ConcState :=
  match e with
  | .read i => { s with locals := s.locals.set i (some s.balance) }
  | .write i =>
    match s.locals.get? i, amounts.get? i with
    | some (some l), some a =>
      if l < a then s
      else { s with
              balance := l - a
              succeeded := s.succeeded.set i true }
    | _, _ => s

/-- Run a whole schedule. -/
def runSchedule (amounts : List Int) (events : List Ev) (s : ConcState) :
    ConcState :=
  events.foldl (concStep amounts) s

/-- Initial state for `n` pending requests. -/
def initConc (balance : Int) (n : Nat) : ConcState :=
  { balance := balance
    locals := List.replicate n none
    succeeded := List.replicate n false }

/-- Number of requests whose debit went through. -/
def countSucc (s : ConcState) : Nat := s.succeeded.count true

/-! Concrete sample data used by witnesses and counterexamples. -/

/-- A wallet with balance 1000 and an empty transaction log. -/
def dbA : DB :=
  { balance := 1000, transactions := [], walletTransactions := [], nextRef := 0 }

/-- A concrete airtime request (PIN verified). -/
def reqA : AirtimeRequest :=
  { phoneNumber := "+2348012345678", amount := 300, network := "mtn",
    pinOk := true, userId := 1 }

/-- A VTPass response that classifies as success. -/
def okResp : ProviderResponse :=
  { code := "000", txStatus := some "delivered",
    response_description := some "TRANSACTION SUCCESSFUL" }

/-- A VTPass response that is an explicit decline. -/
def declineResp : ProviderResponse :=
  { code := "016", txStatus := some "failed",
    response_description := some "TRANSACTION FAILED" }

/-! Helper lemmas. -/

theorem getTransactionType_mem (s : String) :
    typeEnum.contains (getTransactionType s) = true := by
  unfold getTransactionType
  split
  · decide
  split
  · decide
  split
  · decide
  split
  · decide
  · decide

theorem txValid_pending (args : PayArgs) (n : Nat) :
    txValid
      { serviceID := some args.serviceID
        phoneNumber := some args.phoneNumber
        amount := args.amount
        reference := genRef n
        request_id := args.request_id
        status := "pending"
        txType := getTransactionType args.serviceID
        userId := args.userId
        failureReason := none } = true := by
  simp [txValid, statusEnum]
  simpa using getTransactionType_mem args.serviceID

theorem map_keep_of_not_refExists (l : List Transaction) (r : String)
    (t : Transaction) (h : l.any (fun u => u.reference == r) = false) :
    l.map (fun u => if u.reference == r then t else u) = l := by
  induction l with
  | nil => rfl
  | cons x xs ih =>
    simp only [List.any_cons, Bool.or_eq_false_iff] at h
    rw [List.map_cons, h.1, ih h.2]
    simp

theorem txValid_mk (args : PayArgs) (n : Nat) (st : String) (fr : Option String)
    (hst : statusEnum.contains st = true) :
    txValid
      { serviceID := some args.serviceID
        phoneNumber := some args.phoneNumber
        amount := args.amount
        reference := genRef n
        request_id := args.request_id
        status := st
        txType := getTransactionType args.serviceID
        userId := args.userId
        failureReason := fr } = true := by
  simp only [txValid, Option.isSome_some, Bool.true_and, hst]
  simpa using getTransactionType_mem args.serviceID

theorem makePayment_thrown (args : PayArgs) (msg : String) (db : DB)
    (hfresh : refExists db (genRef db.nextRef) = false) :
    makePayment args (.thrown msg) db =
      ({ db with
          nextRef := db.nextRef + 1
          transactions := db.transactions ++
            [{ serviceID := some args.serviceID
               phoneNumber := some args.phoneNumber
               amount := args.amount
               reference := genRef db.nextRef
               request_id := args.request_id
               status := "failed"
               txType := getTransactionType args.serviceID
               userId := args.userId
               failureReason := some msg }] }, .err msg) := by
  have hv := txValid_mk args db.nextRef "pending" none (by decide)
  have hfr : (db.transactions.any fun u => u.reference == genRef db.nextRef) = false :=
    hfresh
  simp only [makePayment, insertTx, refExists, updateTxNoValidate, hv, hfr,
    Bool.not_false, Bool.and_self, if_true, List.map_append,
    map_keep_of_not_refExists _ _ _ hfr, List.map_cons, List.map_nil,
    beq_self_eq_true, if_pos]

theorem makePayment_ok_success (args : PayArgs) (resp : ProviderResponse) (db : DB)
    (hfresh : refExists db (genRef db.nextRef) = false)
    (hs : isSuccessResp resp = true) :
    makePayment args (.ok resp) db =
      ({ db with
          nextRef := db.nextRef + 1
          transactions := db.transactions ++
            [{ serviceID := some args.serviceID
               phoneNumber := some args.phoneNumber
               amount := args.amount
               reference := genRef db.nextRef
               request_id := args.request_id
               status := "success"
               txType := getTransactionType args.serviceID
               userId := args.userId
               failureReason := none }] },
        .ok true (genRef db.nextRef)) := by
  have hv := txValid_mk args db.nextRef "pending" none (by decide)
  have hv1 := txValid_mk args db.nextRef "success" none (by decide)
  have hfr : (db.transactions.any fun u => u.reference == genRef db.nextRef) = false :=
    hfresh
  simp only [makePayment, insertTx, saveTx, refExists, hv, hv1, hfr, hs,
    Bool.not_false, Bool.and_self, if_true, List.map_append,
    map_keep_of_not_refExists _ _ _ hfr, List.map_cons, List.map_nil,
    beq_self_eq_true, if_pos]

theorem makePayment_ok_failure (args : PayArgs) (resp : ProviderResponse) (db : DB)
    (hfresh : refExists db (genRef db.nextRef) = false)
    (hs : isSuccessResp resp = false) :
    makePayment args (.ok resp) db =
      ({ db with
          nextRef := db.nextRef + 1
          transactions := db.transactions ++
            [{ serviceID := some args.serviceID
               phoneNumber := some args.phoneNumber
               amount := args.amount
               reference := genRef db.nextRef
               request_id := args.request_id
               status := "failed"
               txType := getTransactionType args.serviceID
               userId := args.userId
               failureReason :=
                 some (resp.response_description.getD "Transaction failed") }] },
        .ok false (genRef db.nextRef)) := by
  have hv := txValid_mk args db.nextRef "pending" none (by decide)
  have hv1 := txValid_mk args db.nextRef "failed"
    (some (resp.response_description.getD "Transaction failed")) (by decide)
  have hfr : (db.transactions.any fun u => u.reference == genRef db.nextRef) = false :=
    hfresh
  simp only [makePayment, insertTx, saveTx, refExists, hv, hfr, hs,
    Bool.not_false, Bool.and_self, if_true, Bool.false_eq_true, if_false,
    List.map_append, map_keep_of_not_refExists _ _ _ hfr, List.map_cons,
    List.map_nil, beq_self_eq_true, if_pos]
  simp only [hv1, if_true, List.map_append, map_keep_of_not_refExists _ _ _ hfr,
    List.map_cons, List.map_nil, beq_self_eq_true, if_pos]
  rfl

theorem buyAirtime_success_eq (rid : String) (req : AirtimeRequest)
    (resp : ProviderResponse) (db : DB)
    (hpin : req.pinOk = true) (hbal : ¬ db.balance < req.amount)
    (hfresh : refExists db (genRef db.nextRef) = false)
    (hs : isSuccessResp resp = true) :
    buyAirtime rid req (.ok resp) db =
      ({ db with
          balance := db.balance - req.amount
          nextRef := db.nextRef + 1
          transactions := db.transactions ++
            [{ serviceID := some (networkMapAirtime req.network)
               phoneNumber := req.phoneNumber
               amount := req.amount
               reference := genRef db.nextRef
               request_id := some rid
               status := "success"
               txType := getTransactionType (networkMapAirtime req.network)
               userId := req.userId
               failureReason := none }] },
        .ok true (genRef db.nextRef)) := by
  have hmp := makePayment_ok_success
    { serviceID := networkMapAirtime req.network
      phoneNumber := req.phoneNumber
      amount := req.amount
      userId := req.userId
      request_id := some rid } resp db hfresh hs
  simp only [buyAirtime, hpin, Bool.not_true, Bool.false_eq_true, if_false,
    if_neg hbal, hmp, if_true]

theorem buyAirtime_failure_eq (rid : String) (req : AirtimeRequest)
    (resp : ProviderResponse) (db : DB)
    (hpin : req.pinOk = true) (hbal : ¬ db.balance < req.amount)
    (hfresh : refExists db (genRef db.nextRef) = false)
    (hs : isSuccessResp resp = false) :
    buyAirtime rid req (.ok resp) db =
      ({ db with
          nextRef := db.nextRef + 1
          transactions := db.transactions ++
            [{ serviceID := some (networkMapAirtime req.network)
               phoneNumber := req.phoneNumber
               amount := req.amount
               reference := genRef db.nextRef
               request_id := some rid
               status := "failed"
               txType := getTransactionType (networkMapAirtime req.network)
               userId := req.userId
               failureReason :=
                 some (resp.response_description.getD "Transaction failed") }] },
        .ok false (genRef db.nextRef)) := by
  have hmp := makePayment_ok_failure
    { serviceID := networkMapAirtime req.network
      phoneNumber := req.phoneNumber
      amount := req.amount
      userId := req.userId
      request_id := some rid } resp db hfresh hs
  simp only [buyAirtime, hpin, Bool.not_true, Bool.false_eq_true, if_false,
    if_neg hbal, hmp, Bool.true_eq_false, if_true]

/-!
Claim C1.
The claim says a provider call that throws before returning a classified
result leaves the Transaction in status `pending`, deferring resolution to
reconciliation.  The code does the opposite: the catch block of
`makePayment` marks the transaction `failed` (with the thrown message as
`failureReason`) and rethrows.
-/

/-- C1 counterexample: with a wallet of 1000 and a provider call that throws
a timeout, the transaction created by `makePayment` ends in status `failed`,
not in status `pending` as the claim requires. -/
theorem C1_counterexample_thrown_not_pending :
    (((makePayment
        { serviceID := "mtn", phoneNumber := "+2348012345678", amount := 300,
          userId := 1, request_id := some "20251011rid1" }
        (.thrown "timeout of 15000ms exceeded") dbA).1.transactions.map
          (fun t => t.status)) = ["failed"]) ∧
    ¬ (((makePayment
        { serviceID := "mtn", phoneNumber := "+2348012345678", amount := 300,
          userId := 1, request_id := some "20251011rid1" }
        (.thrown "timeout of 15000ms exceeded") dbA).1.transactions.map
          (fun t => t.status)) = ["pending"]) := by decide

/-- C1 amended: when the provider call throws before returning a classified
result, `makePayment` records the attempt's Transaction with status
`failed` (carrying the thrown message as the failure reason) and rethrows
the error; the transaction is not left `pending` for reconciliation. -/
theorem C1_thrown_marks_failed (args : PayArgs) (msg : String) (db : DB)
    (hfresh : refExists db (genRef db.nextRef) = false) :
    (makePayment args (.thrown msg) db).2 = .err msg ∧
    ∃ t, (makePayment args (.thrown msg) db).1.transactions
          = db.transactions ++ [t] ∧
      t.status = "failed" ∧ t.failureReason = some msg := by
  rw [makePayment_thrown args msg db hfresh]
  exact ⟨rfl, _, rfl, rfl, rfl⟩

/-- Witness for C1 amended at a concrete input. -/
theorem C1_thrown_marks_failed_witness :
    (makePayment
      { serviceID := "mtn", phoneNumber := "+2348012345678", amount := 300,
        userId := 1, request_id := some "20251011rid1" }
      (.thrown "timeout of 15000ms exceeded") dbA).2
        = .err "timeout of 15000ms exceeded" ∧
    ∃ t, (makePayment
      { serviceID := "mtn", phoneNumber := "+2348012345678", amount := 300,
        userId := 1, request_id := some "20251011rid1" }
      (.thrown "timeout of 15000ms exceeded") dbA).1.transactions
          = dbA.transactions ++ [t] ∧
      t.status = "failed" ∧ t.failureReason = some "timeout of 15000ms exceeded" :=
  C1_thrown_marks_failed _ _ dbA (by decide)

/-!
Claim C6.
A confirmed provider decline leaves the wallet untouched and records the
Transaction as `failed`: in `buyAirtime` the deduction runs only when the
returned object has `success` true, and `makePayment` marks a classified
non-success response as `failed`.
-/

/-- C6: for every airtime purchase whose provider call returns an explicit
decline (a classified response that is not a success), the wallet balance
after the operation equals the balance before it, and the Transaction of
the attempt is recorded with status `failed`. -/
theorem C6_confirmed_failure_keeps_balance (rid : String) (req : AirtimeRequest)
    (resp : ProviderResponse) (db : DB)
    (hpin : req.pinOk = true) (hbal : ¬ db.balance < req.amount)
    (hfresh : refExists db (genRef db.nextRef) = false)
    (hs : isSuccessResp resp = false) :
    (buyAirtime rid req (.ok resp) db).1.balance = db.balance ∧
    ∃ t, (buyAirtime rid req (.ok resp) db).1.transactions
          = db.transactions ++ [t] ∧ t.status = "failed" := by
  rw [buyAirtime_failure_eq rid req resp db hpin hbal hfresh hs]
  exact ⟨rfl, _, rfl, rfl⟩

/-- Witness for C6: wallet 1000, debit 300, explicit decline — the balance
stays 1000 and the transaction is `failed`. -/
theorem C6_confirmed_failure_keeps_balance_witness :
    (buyAirtime "20251011rid1" reqA (.ok declineResp) dbA).1.balance = dbA.balance ∧
    ∃ t, (buyAirtime "20251011rid1" reqA (.ok declineResp) dbA).1.transactions
          = dbA.transactions ++ [t] ∧ t.status = "failed" :=
  C6_confirmed_failure_keeps_balance _ reqA declineResp dbA
    (by decide) (by decide) (by decide) (by decide)

/-!
Claim C3.
The claim says a second purchase with the same client-supplied reference
creates no second Transaction and no second balance effect, returning the
first call's result.  The code performs no duplicate-reference lookup at
all: every call to `makePayment` generates a fresh `ref_...` reference and
inserts a new Transaction, and the caller deducts the wallet again.
-/

/-- The database after running the same airtime purchase twice with the same
`generateRequestId` value, starting from a wallet of 1000. -/
def runTwiceSameRid : DB :=
  (buyAirtime "20251011rid1" reqA (.ok okResp)
    (buyAirtime "20251011rid1" reqA (.ok okResp) dbA).1).1

/-- C3 counterexample: two purchase invocations with the same
client-supplied request id create two Transaction records and debit the
wallet twice (1000 → 400), refuting the claim that exactly one Transaction
and one balance effect result. -/
theorem C3_counterexample_two_records :
    runTwiceSameRid.transactions.length = 2 ∧
    runTwiceSameRid.balance = 400 ∧
    ¬ (runTwiceSameRid.transactions.length = 1 ∧ runTwiceSameRid.balance = 700) := by
  decide

/-- C3 amended: a retried purchase with the same client-supplied request id
is not deduplicated — the second invocation inserts a second Transaction
(under a second generated reference), applies the balance effect a second
time, and returns its own result rather than the first invocation's. -/
theorem C3_duplicate_reference_not_idempotent (rid : String)
    (req : AirtimeRequest) (resp : ProviderResponse) (db : DB)
    (hpin : req.pinOk = true)
    (hbal : ¬ db.balance < req.amount)
    (hbal2 : ¬ db.balance - req.amount < req.amount)
    (hs : isSuccessResp resp = true)
    (hf1 : refExists db (genRef db.nextRef) = false)
    (hf2 : refExists db (genRef (db.nextRef + 1)) = false)
    (hne : (genRef db.nextRef == genRef (db.nextRef + 1)) = false) :
    ((buyAirtime rid req (.ok resp) (buyAirtime rid req (.ok resp) db).1).1.transactions.length
        = db.transactions.length + 2) ∧
    ((buyAirtime rid req (.ok resp) (buyAirtime rid req (.ok resp) db).1).1.balance
        = db.balance - req.amount - req.amount) ∧
    (buyAirtime rid req (.ok resp) (buyAirtime rid req (.ok resp) db).1).2
        ≠ (buyAirtime rid req (.ok resp) db).2 := by
  rw [buyAirtime_success_eq rid req resp db hpin hbal hf1 hs]
  have hbal2' : ¬ ({ db with
      balance := db.balance - req.amount
      nextRef := db.nextRef + 1
      transactions := db.transactions ++
        [{ serviceID := some (networkMapAirtime req.network)
           phoneNumber := req.phoneNumber
           amount := req.amount
           reference := genRef db.nextRef
           request_id := some rid
           status := "success"
           txType := getTransactionType (networkMapAirtime req.network)
           userId := req.userId
           failureReason := none }] } : DB).balance < req.amount := hbal2
  have hf2' : refExists ({ db with
      balance := db.balance - req.amount
      nextRef := db.nextRef + 1
      transactions := db.transactions ++
        [{ serviceID := some (networkMapAirtime req.network)
           phoneNumber := req.phoneNumber
           amount := req.amount
           reference := genRef db.nextRef
           request_id := some rid
           status := "success"
           txType := getTransactionType (networkMapAirtime req.network)
           userId := req.userId
           failureReason := none }] } : DB)
      (genRef (db.nextRef + 1)) = false := by
    simp only [refExists, List.any_append, List.any_cons, List.any_nil,
      Bool.or_false]
    have hf2a : (db.transactions.any
        fun u => u.reference == genRef (db.nextRef + 1)) = false := hf2
    simp only [hf2a, hne, Bool.or_self]
  rw [buyAirtime_success_eq rid req resp _ hpin hbal2' hf2' hs]
  refine ⟨?_, rfl, ?_⟩
  · simp [List.length_append]
  · intro hcontra
    have h2 : genRef (db.nextRef + 1) = genRef db.nextRef := by
      have h3 := congrArg
        (fun r => match r with
          | HttpResult.ok _ s => s
          | HttpResult.clientError m => m
          | HttpResult.serverError m => m)
        hcontra
      simpa using h3
    rw [h2] at hne
    simp at hne

/-- Witness for C3 amended at a concrete input: wallet 1000, amount 300,
same request id twice. -/
theorem C3_duplicate_reference_not_idempotent_witness :
    ((buyAirtime "20251011rid1" reqA (.ok okResp)
        (buyAirtime "20251011rid1" reqA (.ok okResp) dbA).1).1.transactions.length
        = dbA.transactions.length + 2) ∧
    ((buyAirtime "20251011rid1" reqA (.ok okResp)
        (buyAirtime "20251011rid1" reqA (.ok okResp) dbA).1).1.balance
        = dbA.balance - reqA.amount - reqA.amount) ∧
    (buyAirtime "20251011rid1" reqA (.ok okResp)
        (buyAirtime "20251011rid1" reqA (.ok okResp) dbA).1).2
        ≠ (buyAirtime "20251011rid1" reqA (.ok okResp) dbA).2 :=
  C3_duplicate_reference_not_idempotent _ reqA okResp dbA
    (by decide) (by decide) (by decide) (by decide) (by decide) (by decide)
    (by decide)

/-!
Claim C4.
The sequential part holds: `validateWalletBalance` rejects exactly when
`balance < amount`, and because every saved value is `read - amount` with
`amount ≤ read` enforced at validation, no interleaving stores a negative
balance.  The concurrency bound fails: the balance check and the deduction
are a non-atomic load-then-save, so two handlers that both read before
either writes can both pass validation — more than `floor(balance/amount)`
identical debits can succeed.
-/

/-- The interleaving in which both handlers read the balance before either
writes (both awaits of `User.findById` resolve first). -/
def cexSchedule : List Ev := [.read 0, .read 1, .write 0, .write 1]

/-- C4 counterexample: two concurrent debits of 300 against a balance of
400 can both succeed (final balance 100), exceeding the claimed bound of
`floor(400/300) = 1` successful debits. -/
theorem C4_counterexample_concurrent_overspend :
    countSucc (runSchedule [300, 300] cexSchedule (initConc 400 2)) = 2 ∧
    (runSchedule [300, 300] cexSchedule (initConc 400 2)).balance = 100 ∧
    ¬ (countSucc (runSchedule [300, 300] cexSchedule (initConc 400 2)) ≤ 400 / 300) := by
  decide

/-- C4 amended: a debit fails with `Insufficient wallet balance` exactly
when the balance read at evaluation time is below the amount, and no
schedule of interleaved debit handlers drives the stored balance below
zero — but the `floor(balance/amount)` bound on concurrent successes does
not hold (see the counterexample). -/
theorem C4_insufficient_funds_and_nonneg :
    (∀ b a : Int,
      validateWalletBalance b a = Except.error "Insufficient wallet balance" ↔ b < a) ∧
    (∀ (amounts : List Int) (events : List Ev) (s : ConcState),
      0 ≤ s.balance → 0 ≤ (runSchedule amounts events s).balance) := by
  constructor
  · intro b a
    by_cases h : b < a <;> simp [validateWalletBalance, h]
  · intro amounts events
    induction events with
    | nil => intro s h; exact h
    | cons e es ih =>
      intro s h
      have hstep : 0 ≤ (concStep amounts s e).balance := by
        cases e with
        | read i => simpa [concStep] using h
        | write i =>
          simp only [concStep]
          cases hl : s.locals.get? i with
          | none => simpa [hl] using h
          | some lo =>
            cases lo with
            | none => simpa [hl] using h
            | some l =>
              cases ha : amounts.get? i with
              | none => simpa [hl, ha] using h
              | some a =>
                by_cases hlt : l < a
                · simpa [hl, ha, hlt] using h
                · simp only [hl, ha, if_neg hlt]
                  omega
      have hrun : runSchedule amounts (e :: es) s
          = runSchedule amounts es (concStep amounts s e) := rfl
      rw [hrun]
      exact ih _ hstep

/-- Witness for C4 amended: a concrete rejected debit and a concrete
schedule whose final balance is non-negative. -/
theorem C4_insufficient_funds_and_nonneg_witness :
    validateWalletBalance 200 300 = Except.error "Insufficient wallet balance" ∧
    0 ≤ (runSchedule [300, 300] cexSchedule (initConc 400 2)).balance :=
  ⟨(C4_insufficient_funds_and_nonneg.1 200 300).mpr (by decide),
   C4_insufficient_funds_and_nonneg.2 [300, 300] cexSchedule (initConc 400 2)
     (by decide)⟩

/-!
Claim C5.
The claim says every Transaction written by a balance-changing operation
records `balanceBefore`/`balanceAfter` with the `±amount` equation.  The
`Transaction` model (src/models/transaction.js) has no such fields: the
purchase flows change the balance while appending plain `Transaction`
documents.  Only the wallet service (`creditWallet`/`debitWallet`, used by
the Paystack wallet-funding flow) writes `WalletTransaction` documents
carrying the snapshots, and those do satisfy the equation.
-/

/-- C5 counterexample: a successful airtime purchase changes the balance
(1000 to 700) and appends one `Transaction`, while the `WalletTransaction`
collection — the only schema with `balanceBefore`/`balanceAfter` fields —
gains no entry: this balance-changing operation records no balance
snapshots at all. -/
theorem C5_counterexample_purchase_records_no_snapshots :
    (buyAirtime "20251011rid1" reqA (.ok okResp) dbA).1.balance = 700 ∧
    (buyAirtime "20251011rid1" reqA (.ok okResp) dbA).1.transactions.length = 1 ∧
    (buyAirtime "20251011rid1" reqA (.ok okResp) dbA).1.walletTransactions = [] := by
  decide

/-- C5 amended: only the wallet service records balance snapshots, and for
it the equation holds at commit time: `creditWallet` writes
`balanceBefore = balance` and `balanceAfter = balance + amount` together
with the balance change and the ledger append; `debitWallet`, when funded,
writes `balanceAfter = balance - amount` likewise.  The VTPass purchase
flows write `Transaction` documents with no balance fields (see the
counterexample). -/
theorem C5_wallet_service_records_snapshots (uid : Nat) (amount : Int)
    (r : String) (db : DB) :
    ((creditWallet uid amount r db).2.balanceBefore = some db.balance ∧
     (creditWallet uid amount r db).2.balanceAfter = some (db.balance + amount) ∧
     (creditWallet uid amount r db).1.balance = db.balance + amount ∧
     (creditWallet uid amount r db).1.walletTransactions
        = db.walletTransactions ++ [(creditWallet uid amount r db).2]) ∧
    (¬ db.balance < amount →
      ∃ out, debitWallet uid amount r db = .ok out ∧
        out.2.balanceBefore = some db.balance ∧
        out.2.balanceAfter = some (db.balance - amount) ∧
        out.1.balance = db.balance - amount ∧
        out.1.walletTransactions = db.walletTransactions ++ [out.2]) := by
  refine ⟨⟨rfl, rfl, rfl, rfl⟩, ?_⟩
  intro h
  have hd : debitWallet uid amount r db =
      .ok ({ db with
              balance := db.balance - amount
              walletTransactions := db.walletTransactions ++
                [{ userId := uid, wType := "debit", amount := amount,
                   balanceBefore := some db.balance,
                   balanceAfter := some (db.balance - amount),
                   reference := some r, status := "success" }] },
            { userId := uid, wType := "debit", amount := amount,
              balanceBefore := some db.balance,
              balanceAfter := some (db.balance - amount),
              reference := some r, status := "success" }) := by
    simp [debitWallet, h]
  exact ⟨_, hd, rfl, rfl, rfl, rfl⟩

/-- Witness for C5 amended: a credit of 500 and a funded debit of 300 on a
wallet of 1000. -/
theorem C5_wallet_service_records_snapshots_witness :
    ((creditWallet 1 500 "WALLET_1" dbA).2.balanceBefore = some dbA.balance ∧
     (creditWallet 1 500 "WALLET_1" dbA).2.balanceAfter = some (dbA.balance + 500) ∧
     (creditWallet 1 500 "WALLET_1" dbA).1.balance = dbA.balance + 500 ∧
     (creditWallet 1 500 "WALLET_1" dbA).1.walletTransactions
        = dbA.walletTransactions ++ [(creditWallet 1 500 "WALLET_1" dbA).2]) ∧
    (∃ out, debitWallet 1 300 "WALLET_2" dbA = .ok out ∧
        out.2.balanceBefore = some dbA.balance ∧
        out.2.balanceAfter = some (dbA.balance - 300) ∧
        out.1.balance = dbA.balance - 300 ∧
        out.1.walletTransactions = dbA.walletTransactions ++ [out.2]) :=
  ⟨(C5_wallet_service_records_snapshots 1 500 "WALLET_1" dbA).1,
   (C5_wallet_service_records_snapshots 1 300 "WALLET_2" dbA).2 (by decide)⟩

/-!
Claims C2 and C7.
`applyReferralCode` saves the credited referrer first and only then calls
`Transaction.create` with `status: 'successful'`, `type: 'referral_bonus'`
and no `serviceID`/`phoneNumber`.  The transaction schema allows status
only in `{pending, success, failed}`, has no `referral_bonus` type, and
requires `serviceID` and `phoneNumber`, so the create is rejected and the
request fails with a 500 — after the wallet was already credited.  The
balance changes with no ledger entry at all, contradicting both the
conservation claim (C2) and the referral-bonus claim (C7).
-/

/-- The referrer at the time the bonus is applied (first referral, wallet
1000). -/
def referrerA : Referrer :=
  { userId := 2, balance := 1000, totalReferrals := 0, referralEarnings := 0 }

/-- The referrer's wallet store before the bonus. -/
def dbR : DB :=
  { balance := 1000, transactions := [], walletTransactions := [], nextRef := 0 }

/-- C2 (code bug): applying a referral code on a wallet of 1000 credits the
wallet to 1500, but the paired ledger write is rejected by the transaction
schema, so no transaction of any status is recorded: the final balance 1500
is not initial 1000 plus successful credits 0 minus successful debits 0 —
conservation fails on this flow. -/
theorem C2_referral_credit_breaks_conservation :
    (applyReferralCode referrerA "REF_1760183000001_2" dbR).1.balance = 1500 ∧
    (applyReferralCode referrerA "REF_1760183000001_2" dbR).2.1.balance = 1500 ∧
    (applyReferralCode referrerA "REF_1760183000001_2" dbR).2.1.transactions = [] ∧
    (applyReferralCode referrerA "REF_1760183000001_2" dbR).2.1.walletTransactions = [] ∧
    (applyReferralCode referrerA "REF_1760183000001_2" dbR).2.2
      = HttpResult.serverError "Failed to apply referral code" := by
  decide

/-- C7 (code bug): the referral bonus of 500 on a wallet of 1000 does raise
the balance to 1500, but the operation does not succeed and no transaction
with status `success` and category `referral_bonus` is recorded: the
document `applyReferralCode` tries to create fails transactionSchema
validation (`txValid` is false for it), the request is answered with a 500,
and the transaction log stays empty while the credit stands. -/
theorem C7_referral_bonus_write_rejected :
    calculateReferralReward (referrerA.totalReferrals + 1) = 500 ∧
    txValid
      { serviceID := none, phoneNumber := none, amount := 500,
        reference := "REF_1760183000001_2", request_id := none,
        status := "successful", txType := "referral_bonus",
        userId := 2, failureReason := none } = false ∧
    (applyReferralCode referrerA "REF_1760183000001_2" dbR).1.balance
      = referrerA.balance + 500 ∧
    (applyReferralCode referrerA "REF_1760183000001_2" dbR).2.1.transactions = [] ∧
    (applyReferralCode referrerA "REF_1760183000001_2" dbR).2.2
      = HttpResult.serverError "Failed to apply referral code" := by
  decide

/-!
Claim C8.
The claim says `Transaction.status` is terminal once `success` or `failed`
is reached.  `verifyTransaction` overwrites the stored status with whatever
the requery's `content.status` reports whenever the requery code is `000`,
without looking at the current status, so a terminal transaction can be
moved again; only values outside the schema enum are stopped (by the save's
validation), not transitions out of a terminal state.
-/

/-- A transaction already in terminal status `success`. -/
def txSuccessA : Transaction :=
  { serviceID := some "mtn", phoneNumber := some "+2348012345678", amount := 300,
    reference := "ref_0", request_id := some "20251011rid1", status := "success",
    txType := "airtime", userId := 1, failureReason := none }

/-- A store holding one terminal transaction. -/
def dbV : DB :=
  { balance := 700, transactions := [txSuccessA], walletTransactions := [],
    nextRef := 1 }

/-- C8 counterexample: a requery answering code 000 with provider status
`pending` moves a transaction already in terminal status `success` back to
`pending`, refuting terminality of `success`. -/
theorem C8_counterexample_terminal_overwritten :
    ((verifyTransaction "ref_0"
        (some { code := "000", contentStatus := some "pending" }) dbV).1.transactions.map
          (fun t => t.status)) = ["pending"] ∧
    (verifyTransaction "ref_0"
        (some { code := "000", contentStatus := some "pending" }) dbV).2
      = .verified "pending" ∧
    ¬ (((verifyTransaction "ref_0"
        (some { code := "000", contentStatus := some "pending" }) dbV).1.transactions.map
          (fun t => t.status)) = ["success"]) := by
  decide

/-- C8 amended: whenever the requery returns code 000 with a non-empty
provider status whose write passes schema validation, `verifyTransaction`
sets the stored transaction's status to that provider status regardless of
the current status — including out of the terminal statuses `success` and
`failed`; only enum-invalid values are rejected by the save. -/
theorem C8_requery_overwrites_status (ref s : String) (db : DB) (t : Transaction)
    (hfind : db.transactions.find? (fun u => u.reference == ref) = some t)
    (hs : (s == "") = false)
    (hvalid : txValid { t with status := s } = true) :
    (verifyTransaction ref (some { code := "000", contentStatus := some s }) db).2
        = .verified s ∧
    (verifyTransaction ref (some { code := "000", contentStatus := some s }) db).1.transactions
        = db.transactions.map
            (fun u => if u.reference == t.reference then { t with status := s } else u) := by
  simp only [verifyTransaction, hfind, beq_self_eq_true, if_true, hs,
    Bool.false_eq_true, if_false, saveTx, hvalid]
  exact ⟨trivial, trivial⟩

/-- Witness for C8 amended: the terminal `success` transaction of `dbV`
overwritten to `pending` by a code-000 requery. -/
theorem C8_requery_overwrites_status_witness :
    (verifyTransaction "ref_0"
        (some { code := "000", contentStatus := some "pending" }) dbV).2
      = .verified "pending" ∧
    (verifyTransaction "ref_0"
        (some { code := "000", contentStatus := some "pending" }) dbV).1.transactions
      = dbV.transactions.map
          (fun u => if u.reference == txSuccessA.reference then
            { txSuccessA with status := "pending" } else u) :=
  C8_requery_overwrites_status "ref_0" "pending" dbV txSuccessA
    (by decide) (by decide) (by decide)

/-!
Claim C9.
In the payStackController flows the wallet check and the deduction are both
guarded by `!isSandbox`: with `VTPASS_ENV === 'sandbox'` a successful
provider call records a `success` transaction while the wallet keeps its
balance — the debit is never applied in that configuration.
-/

theorem txValid_ps (args : PayArgs) (n : Nat) (st : String) (fr : Option String)
    (hst : statusEnum.contains st = true) :
    txValid
      { serviceID := some args.serviceID
        phoneNumber := some args.phoneNumber
        amount := args.amount
        reference := genRef n
        request_id := none
        status := st
        txType := "airtime"
        userId := args.userId
        failureReason := fr } = true := by
  simp [txValid, typeEnum]
  simpa using hst

theorem makePaymentPS_ok_success (args : PayArgs) (resp : ProviderResponse)
    (db : DB) (hfresh : refExists db (genRef db.nextRef) = false)
    (hs : isSuccessRespPS resp = true) :
    makePaymentPS args (.ok resp) db =
      ({ db with
          nextRef := db.nextRef + 1
          transactions := db.transactions ++
            [{ serviceID := some args.serviceID
               phoneNumber := some args.phoneNumber
               amount := args.amount
               reference := genRef db.nextRef
               request_id := none
               status := "success"
               txType := "airtime"
               userId := args.userId
               failureReason := none }] },
        .ok true (genRef db.nextRef)) := by
  have hv := txValid_ps args db.nextRef "pending" none (by decide)
  have hv1 := txValid_ps args db.nextRef "success" none (by decide)
  have hfr : (db.transactions.any fun u => u.reference == genRef db.nextRef) = false :=
    hfresh
  simp only [makePaymentPS, insertTx, saveTx, refExists, hv, hv1, hfr, hs,
    Bool.not_false, Bool.and_self, if_true, List.map_append,
    map_keep_of_not_refExists _ _ _ hfr, List.map_cons, List.map_nil,
    beq_self_eq_true, if_pos]

/-- C9: in sandbox configuration, a data-bundle purchase whose provider call
succeeds records a Transaction with status `success` and leaves the wallet
balance unchanged — the debit is not applied. -/
theorem C9_sandbox_success_no_debit (req : DataBundleRequest)
    (resp : ProviderResponse) (db : DB)
    (hpin : req.pinOk = true)
    (hfresh : refExists db (genRef db.nextRef) = false)
    (hs : isSuccessRespPS resp = true) :
    (buyDataBundlePS true req (.ok resp) db).1.balance = db.balance ∧
    ∃ t, (buyDataBundlePS true req (.ok resp) db).1.transactions
          = db.transactions ++ [t] ∧ t.status = "success" := by
  have hmp := makePaymentPS_ok_success
    { serviceID := req.serviceID
      phoneNumber := req.phoneNumber
      amount := req.amount
      userId := req.userId
      request_id := none } resp db hfresh hs
  simp only [buyDataBundlePS, hpin, Bool.not_true, Bool.false_eq_true, if_false,
    Bool.false_and, hmp, Bool.and_false, if_true]
  exact ⟨trivial, _, rfl, rfl⟩

/-- Witness for C9: sandbox data purchase of 300 against a wallet of 1000 —
the balance stays 1000 and the recorded transaction is `success`. -/
theorem C9_sandbox_success_no_debit_witness :
    (buyDataBundlePS true
        { phoneNumber := "+2348012345678", amount := 300, serviceID := "mtn-data",
          pinOk := true, userId := 1 }
        (.ok okResp) dbA).1.balance = dbA.balance ∧
    ∃ t, (buyDataBundlePS true
        { phoneNumber := "+2348012345678", amount := 300, serviceID := "mtn-data",
          pinOk := true, userId := 1 }
        (.ok okResp) dbA).1.transactions = dbA.transactions ++ [t] ∧
      t.status = "success" :=
  C9_sandbox_success_no_debit
    { phoneNumber := "+2348012345678", amount := 300, serviceID := "mtn-data",
      pinOk := true, userId := 1 } okResp dbA (by decide) (by decide) (by decide)

/-!
Claim C10.
`getTransactionByReference` queries `findOne({ reference, userId })`: a
transaction is returned only when both the reference and the authenticated
caller match, and a reference owned by a different user answers not-found.
-/

/-- C10: the reference lookup is scoped to the authenticated caller — any
returned transaction carries the caller's userId and the queried reference,
and when every stored transaction with that reference belongs to a
different user, the lookup reports not-found. -/
theorem C10_lookup_scoped_to_owner (uid : Nat) (ref : String) (db : DB) :
    (∀ t, getTransactionByReference uid ref db = some t →
        t.userId = uid ∧ t.reference = ref) ∧
    ((∀ t ∈ db.transactions, t.reference = ref → t.userId ≠ uid) →
        getTransactionByReference uid ref db = none) := by
  constructor
  · intro t ht
    have h := List.find?_some ht
    simp only [Bool.and_eq_true, beq_iff_eq] at h
    exact ⟨h.2, h.1⟩
  · intro h
    unfold getTransactionByReference
    rw [List.find?_eq_none]
    intro t htmem
    simp only [Bool.and_eq_true, beq_iff_eq, not_and]
    intro hr
    exact fun hu => h t htmem hr hu

/-- Witness for C10: the store `dbV` holds the reference `ref_0` for user 1;
user 2 asking for that reference gets not-found. -/
theorem C10_lookup_scoped_to_owner_witness :
    getTransactionByReference 2 "ref_0" dbV = none :=
  (C10_lookup_scoped_to_owner 2 "ref_0" dbV).2 (by decide)

end PayFlex
